import Mathlib

/-!
Verification development for `Sync/sync.py` (Acquia Drupal helper).

The script's `main` is a straight-line interactive orchestrator.  We embed it
as a pure function from an `Input` record — the command-line arguments, the
operator's answers to the three prompts, the success/failure behaviour of the
environment resolver, the stdout/stderr of the remote version query, and the
timestamp used for backup filenames — to the ordered trace of prompt/remote
events the run performs, together with the way the process terminates.
-/

namespace Sync

/-- Prompt and remote events produced by a run of `main` in `Sync/sync.py`,
listed in a trace in the order the script performs them.  `resolveEnv` is the
API lookup `acquia_get_environment_details`, `versionQuery` the remote
`drush status` of `find_drupal_version`, `mkdirBackups` the
`mkdir -p .../custombackups` call, `drush` a `drush_command` invocation on the
destination, `filesZip` the remote `zip` of `files_backup`, and
`dbCopy`/`filesCopy` the external copy API calls. -/
inductive Event where
  | promptProdConfirm : Event
  | promptScope : Event
  | promptMode : Event
  | resolveEnv (sub env : String) : Event
  | versionQuery : Event
  | mkdirBackups : Event
  | drush (cmd : String) : Event
  | filesZip : Event
  | dbCopy (sub src dst : String) : Event
  | filesCopy (sub src dst : String) : Event
deriving DecidableEq

/-- Ways a run of `sync.py` terminates.  The `quit()`/`exit()` calls of the
script raise `SystemExit(None)`; `usageError`, `userAbort`, `badScope`,
`validationError`, `versionNotFound` and `badMode` are those paths.
`versionParseCrash` is the uncaught `AttributeError` from
`re.search(...).group()` when the version regex finds no match, and
`nameErrorCrash` the uncaught `NameError` when the post-copy `commands`
variable was never assigned. -/
inductive Outcome where
  | usageError
  | userAbort
  | badScope
  | validationError
  | versionNotFound
  | versionParseCrash
  | badMode
  | nameErrorCrash
  | completed
deriving DecidableEq

/-- Process exit status of each outcome under CPython semantics: `quit()` and
`exit()` with no argument raise `SystemExit(None)`, which terminates the
process with status 0; an uncaught exception (`AttributeError`, `NameError`)
terminates it with status 1; falling off the end of `main` gives status 0. -/
def exitCode : Outcome → Nat
  | .versionParseCrash => 1
  | .nameErrorCrash => 1
  | _ => 0

/-- Environment of one run of the script: `argv` (including the program name),
the operator's answers to the production-confirmation, scope and
sanitization-mode prompts, which environment names the platform API resolves
successfully (`envOk`), the stdout and stderr of the remote drush
status query, and the `datetime.now()` timestamp string used in backup
filenames. -/
structure Input where
  argv : List String
  prodAnswer : String
  scopeAnswer : String
  modeAnswer : String
  envOk : String → Bool
  versionStdout : String
  versionStderr : String
  stamp : String

/-- Python `s.startswith(c)` for a single-character prefix `c`, on the
character list of `s`. -/
def startsWithChar (c : Char) : List Char → Bool
  | [] => false
  | d :: _ => d == c

/-- Embedding of `re.search(r'\d.+', s)` followed by `.group()`: the leftmost
match of a digit followed by at least one character other than a newline,
returning the digit together with the maximal run of non-newline characters
after it; `none` when there is no match (in the script this is an
`AttributeError` on `.group()`). -/
def reSearchDigitRest : List Char → Option (List Char)
  | [] => none
  | c :: rest =>
      if c.isDigit && startsWithChar '\n' rest = false && rest ≠ [] then
        some (c :: rest.takeWhile (fun d => d ≠ '\n'))
      else
        reSearchDigitRest rest

/-- Result of `DrushWorker.find_drupal_version`: `exitNoVersion` when the ssh
subprocess wrote anything to stderr (the script logs an error and calls
`exit()`), `crashNoMatch` when the version regex finds no match in stdout
(uncaught `AttributeError`), and `ok v` with the matched version string
otherwise. -/
inductive VersionResult where
  | exitNoVersion
  | crashNoMatch
  | ok (version : String)
deriving DecidableEq

/-- Embedding of `DrushWorker.find_drupal_version` (sync.py lines 45–59),
with the remote command's stdout and stderr as parameters. -/
def find_drupal_version (out err : String) : VersionResult :=
  if err ≠ "" then .exitNoVersion
  else
    match reSearchDigitRest out.data with
    | none => .crashNoMatch
    | some cs => .ok (String.mk cs)

/-- The destination database dump command built at sync.py lines 151–153:
`sql-dump --result-file=/mnt/gfs/<sub>.<dest>/custombackups/<sub>.<dest>-<stamp>.sql`. -/
def dumpCmd (sub dest stamp : String) : String :=
  "sql-dump --result-file=/mnt/gfs/" ++ sub ++ "." ++ dest ++ "/custombackups/"
    ++ sub ++ "." ++ dest ++ "-" ++ stamp ++ ".sql"

/-- Post-copy command selection of the sanitize branch (sync.py lines
173–177): two independent `if drupal_version.startswith(..)` assignments to
`commands`; since no string starts with both `'7'` and `'8'` they behave as an
if/else-if chain, and when neither matches `commands` is never assigned
(`none`, a `NameError` at the subsequent use). -/
def sanitizeCommands (version : String) : Option (List String) :=
  if startsWithChar '7' version.data then some ["sql-sanitize -y", "rr --fire-bazooka"]
  else if startsWithChar '8' version.data then some ["sql-sanitize -y", "cr"]
  else none

/-- Post-copy command selection of the full-copy branch (sync.py lines
188–191), with the same unassigned-`commands` behaviour as
`sanitizeCommands` when the version starts with neither digit. -/
def fullCopyCommands (version : String) : Option (List String) :=
  if startsWithChar '7' version.data then some ["rr --fire-bazooka"]
  else if startsWithChar '8' version.data then some ["cr"]
  else none

/-- Post-copy command of the files branch (sync.py lines 199–202): two
independent guarded single commands, so an unclassified version yields no
command at all (and no error, since no variable is involved). -/
def filesPostCopy (version : String) : List String :=
  if startsWithChar '7' version.data then ["rr --fire-bazooka"]
  else if startsWithChar '8' version.data then ["cr"]
  else []

/-- Files branch of `main` (sync.py lines 195–202): zip the destination's
files, issue the external files copy, then the version-selected cache-clear
command (none when the version is unclassified). -/
def filesBranch (sub source dest version : String) : List Event :=
  [Event.filesZip, Event.filesCopy sub source dest]
    ++ (filesPostCopy version).map Event.drush

/-- Database branch of `main` and the rest of the run after it (sync.py lines
148–202): dump the destination database, prompt for the sanitization mode,
abort on an invalid choice, otherwise issue the external database copy and
then the version-selected post-copy command list (a `NameError` when the
version is unclassified, since `commands` was never assigned), finally the
files branch when the operator chose scope "both" (`alsoFiles`). -/
def dbAndAfter (modeAnswer stamp sub source dest version : String)
    (alsoFiles : Bool) : List Event × Outcome :=
  let t5 : List Event := [.drush (dumpCmd sub dest stamp), .promptMode]
  if modeAnswer = "1" ∨ modeAnswer = "2" then
    match (if modeAnswer = "1" then sanitizeCommands version
           else fullCopyCommands version) with
    | none => (t5 ++ [Event.dbCopy sub source dest], .nameErrorCrash)
    | some cs =>
        let t6 := t5 ++ [Event.dbCopy sub source dest] ++ cs.map Event.drush
        if alsoFiles then
          (t6 ++ filesBranch sub source dest version, .completed)
        else
          (t6, .completed)
  else
    (t5, .badMode)

/-- Body of `main` after argument unpacking (sync.py lines 106–202):
production confirmation, scope prompt, destination resolution, version
detection, backup-directory creation, then the database branch (dump,
sanitization-mode prompt, external database copy, post-copy command list)
and/or the files branch. -/
def runArgs (inp : Input) (sub source dest : String) : List Event × Outcome :=
  let confirmTrace : List Event :=
    if dest = "prod" then [.promptProdConfirm] else []
  if dest = "prod" ∧ inp.prodAnswer ≠ "y" ∧ inp.prodAnswer ≠ "Y" then
    (confirmTrace, .userAbort)
  else
    let t1 := confirmTrace ++ [Event.promptScope]
    if inp.scopeAnswer = "1" ∨ inp.scopeAnswer = "2" ∨ inp.scopeAnswer = "3" then
      let t2 := t1 ++ [Event.resolveEnv sub dest]
      if inp.envOk dest then
        let t3 := t2 ++ [Event.versionQuery]
        match find_drupal_version inp.versionStdout inp.versionStderr with
        | .exitNoVersion => (t3, .versionNotFound)
        | .crashNoMatch => (t3, .versionParseCrash)
        | .ok version =>
          let t4 := t3 ++ [Event.mkdirBackups]
          if inp.scopeAnswer = "1" ∨ inp.scopeAnswer = "3" then
            let res := dbAndAfter inp.modeAnswer inp.stamp sub source dest version
              (decide (inp.scopeAnswer = "2" ∨ inp.scopeAnswer = "3"))
            (t4 ++ res.1, res.2)
          else
            if inp.scopeAnswer = "2" ∨ inp.scopeAnswer = "3" then
              (t4 ++ filesBranch sub source dest version, .completed)
            else
              (t4, .completed)
      else
        (t2, .validationError)
    else
      (t1, .badScope)

/-- Embedding of `main` (sync.py lines 97–202): a usage error unless `argv`
has exactly four entries, otherwise `runArgs` on the unpacked subscription,
source and destination. -/
def pyMain (inp : Input) : List Event × Outcome :=
  match inp.argv with
  | [_, sub, source, dest] => runArgs inp sub source dest
  | _ => ([], .usageError)

/-- Events that issue a drush command or an external copy call on behalf of
the destination. -/
def isCmdEvent : Event → Bool
  | .drush _ => true
  | .dbCopy _ _ _ => true
  | .filesCopy _ _ _ => true
  | _ => false

/-- The drush/copy command subsequence of a trace, in order. -/
def cmdEvents (t : List Event) : List Event := t.filter isCmdEvent

/-- Local interactive prompts (no remote side effect). -/
def isPromptEvent : Event → Bool
  | .promptProdConfirm => true
  | .promptScope => true
  | .promptMode => true
  | _ => false

/-- Whether a drush command string is one of the destructive post-copy
commands the script can issue: sanitize, route rebuild, cache rebuild. -/
def isSanOrCacheClear (c : String) : Bool :=
  c == "sql-sanitize -y" || c == "rr --fire-bazooka" || c == "cr"

/-- Destructive remote operations in the sense of the §3 invariant: the
sanitize/cache-clear drush commands and the two external copy calls. -/
def isDestructiveEvent : Event → Bool
  | .drush c => isSanOrCacheClear c
  | .dbCopy _ _ _ => true
  | .filesCopy _ _ _ => true
  | _ => false

/-- Scan of a trace checking the §3 invariant: walking left to right while
tracking whether the destination has been resolved (`r`), a database dump
drush command has been issued (`d` — the only non-destructive drush command
the script ever issues is the `sql-dump` backup), and a files zip backup has
been taken (`z`); a database copy demands a prior resolve and dump, a files
copy a prior resolve and zip, and a destructive drush command a prior resolve
and a backup of the branch's kind. -/
def backupGuardScan : Bool → Bool → Bool → List Event → Bool
  | _, _, _, [] => true
  | _, d, z, Event.resolveEnv _ _ :: rest => backupGuardScan true d z rest
  | r, d, _, Event.filesZip :: rest => backupGuardScan r d true rest
  | r, d, z, Event.drush c :: rest =>
      if isSanOrCacheClear c then r && (d || z) && backupGuardScan r d z rest
      else backupGuardScan r true z rest
  | r, d, z, Event.dbCopy _ _ _ :: rest => r && d && backupGuardScan r d z rest
  | r, d, z, Event.filesCopy _ _ _ :: rest => r && z && backupGuardScan r d z rest
  | r, d, z, _ :: rest => backupGuardScan r d z rest

/-- Transcribed from the specification's §4.3 step 5d table (the spec's
words, for comparison against the code): the post-copy command list as a
function of whether the platform is version 7 and whether the operator chose
sanitize mode. -/
def specPostCopyTable (isV7 sanitizeMode : Bool) : List String :=
  match isV7, sanitizeMode with
  | true, true => ["sql-sanitize -y", "rr --fire-bazooka"]
  | true, false => ["rr --fire-bazooka"]
  | false, true => ["sql-sanitize -y", "cr"]
  | false, false => ["cr"]

/-! Helper lemmas: unfolding equations for `backupGuardScan`, basic facts
about the command strings, and branch-level facts used by several proofs. -/

@[simp] theorem bgs_nil (r d z : Bool) : backupGuardScan r d z [] = true := rfl

@[simp] theorem bgs_promptProd (r d z : Bool) (t : List Event) :
    backupGuardScan r d z (Event.promptProdConfirm :: t) = backupGuardScan r d z t := rfl

@[simp] theorem bgs_promptScope (r d z : Bool) (t : List Event) :
    backupGuardScan r d z (Event.promptScope :: t) = backupGuardScan r d z t := rfl

@[simp] theorem bgs_promptMode (r d z : Bool) (t : List Event) :
    backupGuardScan r d z (Event.promptMode :: t) = backupGuardScan r d z t := rfl

@[simp] theorem bgs_resolve (r d z : Bool) (s e : String) (t : List Event) :
    backupGuardScan r d z (Event.resolveEnv s e :: t) = backupGuardScan true d z t := rfl

@[simp] theorem bgs_vq (r d z : Bool) (t : List Event) :
    backupGuardScan r d z (Event.versionQuery :: t) = backupGuardScan r d z t := rfl

@[simp] theorem bgs_mkdir (r d z : Bool) (t : List Event) :
    backupGuardScan r d z (Event.mkdirBackups :: t) = backupGuardScan r d z t := rfl

@[simp] theorem bgs_zip (r d z : Bool) (t : List Event) :
    backupGuardScan r d z (Event.filesZip :: t) = backupGuardScan r d true t := rfl

@[simp] theorem bgs_drush (r d z : Bool) (c : String) (t : List Event) :
    backupGuardScan r d z (Event.drush c :: t) =
      if isSanOrCacheClear c then r && (d || z) && backupGuardScan r d z t
      else backupGuardScan r true z t := rfl

@[simp] theorem bgs_dbCopy (r d z : Bool) (a b c : String) (t : List Event) :
    backupGuardScan r d z (Event.dbCopy a b c :: t) =
      (r && d && backupGuardScan r d z t) := rfl

@[simp] theorem bgs_filesCopy (r d z : Bool) (a b c : String) (t : List Event) :
    backupGuardScan r d z (Event.filesCopy a b c :: t) =
      (r && z && backupGuardScan r d z t) := rfl

/-- The dump command string is at least as long as its constant prefix, hence
never equal to any of the short post-copy command strings. -/
theorem dumpCmd_length (sub dest stamp : String) :
    32 ≤ (dumpCmd sub dest stamp).length := by
  have h1 : ("sql-dump --result-file=/mnt/gfs/" : String).length = 32 := rfl
  simp [dumpCmd, String.length_append, h1]
  omega

/-- The database dump drush command is not one of the destructive post-copy
commands. -/
@[simp] theorem isSanOrCacheClear_dumpCmd (sub dest stamp : String) :
    isSanOrCacheClear (dumpCmd sub dest stamp) = false := by
  have hlen := dumpCmd_length sub dest stamp
  simp only [isSanOrCacheClear, Bool.or_eq_false_iff, beq_eq_false_iff_ne, ne_eq]
  refine ⟨⟨?_, ?_⟩, ?_⟩ <;>
    · intro h
      rw [h] at hlen
      simp [String.length] at hlen

@[simp] theorem isSan_sanitize : isSanOrCacheClear "sql-sanitize -y" = true := rfl

@[simp] theorem isSan_rr : isSanOrCacheClear "rr --fire-bazooka" = true := rfl

@[simp] theorem isSan_cr : isSanOrCacheClear "cr" = true := rfl

/-- A string starting with `'7'` does not start with `'8'`. -/
theorem startsWithChar_seven_not_eight (l : List Char)
    (h : startsWithChar '7' l = true) : startsWithChar '8' l = false := by
  cases l with
  | nil => simp [startsWithChar]
  | cons c cs =>
      simp [startsWithChar] at h ⊢
      subst h
      decide

/-- The version regex finds no match in output containing no digit. -/
theorem reSearchDigitRest_no_digit (l : List Char)
    (h : ∀ c ∈ l, c.isDigit = false) : reSearchDigitRest l = none := by
  induction l with
  | nil => rfl
  | cons c cs ih =>
      have hc := h c (List.mem_cons_self c cs)
      rw [reSearchDigitRest, hc]
      simp
      exact ih fun d hd => h d (List.mem_cons_of_mem c hd)

/-- The files branch preserves the backup-guard invariant from any state in
which the destination is already resolved. -/
theorem bgs_filesBranch (d z : Bool) (sub source dest version : String) :
    backupGuardScan true d z (filesBranch sub source dest version) = true := by
  unfold filesBranch filesPostCopy
  split
  · simp
  · split <;> simp

/-- A prefix consisting only of the optional production-confirmation prompt
does not affect the backup-guard scan. -/
@[simp] theorem bgs_confirm (r d z : Bool) (P : Prop) [Decidable P] (t : List Event) :
    backupGuardScan r d z ((if P then [Event.promptProdConfirm] else []) ++ t) =
      backupGuardScan r d z t := by
  split <;> simp

/-- Whenever the post-copy command selection assigns a command list, every
command in it is one of the destructive sanitize/cache-clear commands. -/
theorem postCopy_all_destructive (m v : String) (cs : List String)
    (h : (if m = "1" then sanitizeCommands v else fullCopyCommands v) = some cs) :
    ∀ c ∈ cs, isSanOrCacheClear c = true := by
  unfold sanitizeCommands fullCopyCommands at h
  repeat' split at h
  all_goals first
    | (injection h with h2; subst h2; simp)
    | (cases h)

/-- A run of destructive drush commands passes the backup-guard scan when the
destination is resolved and a backup of some kind has been taken. -/
theorem bgs_drushList (cs : List String) (d z : Bool) (t : List Event)
    (hall : ∀ c ∈ cs, isSanOrCacheClear c = true) (hdz : (d || z) = true) :
    backupGuardScan true d z (cs.map Event.drush ++ t) = backupGuardScan true d z t := by
  induction cs with
  | nil => simp
  | cons c cs ih =>
      have hc := hall c (List.mem_cons_self c cs)
      have ih2 := ih fun c2 hc2 => hall c2 (List.mem_cons_of_mem c hc2)
      simp [hc, hdz, ih2]

/-- The database branch and everything after it passes the backup-guard scan
from the state in which the destination is resolved but no backup exists yet:
the branch takes the dump first. -/
theorem bgs_dbAndAfter (m st sub src dst v : String) (f : Bool) :
    backupGuardScan true false false (dbAndAfter m st sub src dst v f).1 = true := by
  unfold dbAndAfter
  split
  · split
    · simp
    · rename_i cs heq
      have hall := postCopy_all_destructive m v cs heq
      split
      · simp [bgs_drushList cs true false (filesBranch sub src dst v) hall rfl,
          bgs_filesBranch]
      · have hnil := bgs_drushList cs true false [] hall rfl
        simp at hnil
        simp [hnil]
  · simp

/-- A string starting with `'8'` does not start with `'7'`. -/
theorem startsWithChar_eight_not_seven (l : List Char)
    (h : startsWithChar '8' l = true) : startsWithChar '7' l = false := by
  cases l with
  | nil => simp [startsWithChar]
  | cons c cs =>
      simp [startsWithChar] at h ⊢
      subst h
      decide

/-! Claim theorems. -/

/-- C4: over every run, no destructive remote operation (sanitize, database
copy, files copy, cache-clear) executes before both the destination
environment has been resolved and a backup artifact of the affected data kind
(database dump for the database branch, files zip for the files branch) has
been created: the backup-guard scan of every trace the orchestrator can
produce succeeds. -/
theorem c4_no_destructive_before_resolve_and_backup (inp : Input) :
    backupGuardScan false false false (pyMain inp).1 = true := by
  rcases hargv : inp.argv with _ | ⟨p, _ | ⟨a, _ | ⟨b, _ | ⟨c, _ | ⟨d, rest⟩⟩⟩⟩⟩ <;>
    simp only [pyMain, hargv] <;> try rfl
  unfold runArgs
  repeat' split
  all_goals simp [bgs_filesBranch, bgs_dbAndAfter]

/-- The database branch never ends in the user-abort outcome (that outcome
arises only from the production confirmation). -/
theorem dbAndAfter_ne_userAbort (m st sub src dst v : String) (f : Bool) :
    (dbAndAfter m st sub src dst v f).2 ≠ Outcome.userAbort := by
  unfold dbAndAfter
  repeat' split
  all_goals simp

/-- C1: for every database-scope run in which the destination resolves, the
version detection returns a version starting with `7` or `8`, and the
operator picks a valid sanitization mode, the orchestrator issues on the
destination exactly the command sequence of the §4.3 table — the `sql-dump`
backup first, then the external database-copy call, then the version- and
mode-selected post-copy list — with the copy call between the dump and the
first post-copy command. -/
theorem c1_db_scope_exact_sequence (inp : Input)
    (prog sub source dest version : String)
    (hargv : inp.argv = [prog, sub, source, dest])
    (hprod : dest = "prod" → inp.prodAnswer = "y" ∨ inp.prodAnswer = "Y")
    (hscope : inp.scopeAnswer = "1")
    (henv : inp.envOk dest = true)
    (hfind : find_drupal_version inp.versionStdout inp.versionStderr =
      VersionResult.ok version)
    (hmode : inp.modeAnswer = "1" ∨ inp.modeAnswer = "2")
    (h78 : startsWithChar '7' version.data = true ∨
      startsWithChar '8' version.data = true) :
    pyMain inp =
      ((if dest = "prod" then [Event.promptProdConfirm] else []) ++
        [Event.promptScope, Event.resolveEnv sub dest, Event.versionQuery,
         Event.mkdirBackups, Event.drush (dumpCmd sub dest inp.stamp),
         Event.promptMode, Event.dbCopy sub source dest] ++
        (specPostCopyTable (startsWithChar '7' version.data)
          (inp.modeAnswer == "1")).map Event.drush,
       Outcome.completed) ∧
    cmdEvents (pyMain inp).1 =
      Event.drush (dumpCmd sub dest inp.stamp) :: Event.dbCopy sub source dest ::
        (specPostCopyTable (startsWithChar '7' version.data)
          (inp.modeAnswer == "1")).map Event.drush := by
  have habort : ¬(dest = "prod" ∧ inp.prodAnswer ≠ "y" ∧ inp.prodAnswer ≠ "Y") := by
    rintro ⟨hd, hny, hnY⟩
    rcases hprod hd with h | h
    · exact hny h
    · exact hnY h
  have hcase : (startsWithChar '7' version.data = true ∧
        startsWithChar '8' version.data = false) ∨
      (startsWithChar '7' version.data = false ∧
       startsWithChar '8' version.data = true) := by
    rcases h78 with h | h
    · exact Or.inl ⟨h, startsWithChar_seven_not_eight _ h⟩
    · exact Or.inr ⟨startsWithChar_eight_not_seven _ h, h⟩
  rcases hmode with hm | hm <;>
    rcases hcase with ⟨h7, h8⟩ | ⟨h7, h8⟩ <;>
      constructor <;>
        simp [pyMain, hargv, runArgs, dbAndAfter, sanitizeCommands,
          fullCopyCommands, specPostCopyTable, cmdEvents, isCmdEvent,
          habort, hscope, henv, hfind, hm, h7, h8]

/-- Witness input for C1: a database-only sanitize run against a version-8
destination. -/
def c1In : Input :=
  { argv := ["sync.py", "acme", "dev", "stage"]
    prodAnswer := "x"
    scopeAnswer := "1"
    modeAnswer := "1"
    envOk := fun _ => true
    versionStdout := "8.9.1"
    versionStderr := ""
    stamp := "202401011200" }

/-- Witness for C1: on the concrete run the sequence is exactly
dump, copy, `sql-sanitize -y`, `cr`. -/
theorem c1_db_scope_exact_sequence_witness :
    pyMain c1In =
      ([Event.promptScope, Event.resolveEnv "acme" "stage", Event.versionQuery,
        Event.mkdirBackups, Event.drush (dumpCmd "acme" "stage" "202401011200"),
        Event.promptMode, Event.dbCopy "acme" "dev" "stage",
        Event.drush "sql-sanitize -y", Event.drush "cr"],
       Outcome.completed) ∧
    cmdEvents (pyMain c1In).1 =
      [Event.drush (dumpCmd "acme" "stage" "202401011200"),
       Event.dbCopy "acme" "dev" "stage",
       Event.drush "sql-sanitize -y", Event.drush "cr"] := by
  have h := c1_db_scope_exact_sequence c1In "sync.py" "acme" "dev" "stage" "8.9.1"
    rfl (by decide) rfl rfl (by decide) (Or.inl rfl) (Or.inr (by decide))
  simpa using h

/-- C3: when the destination is the production designation, the confirmation
prompt is the very first step, and an operator answer other than `y`/`Y`
terminates the run with zero remote calls: the trace is exactly the
confirmation prompt and contains only prompt events. -/
theorem c3_prod_decline_zero_remote_calls (inp : Input) (prog sub source : String)
    (hargv : inp.argv = [prog, sub, source, "prod"])
    (hny : inp.prodAnswer ≠ "y") (hnY : inp.prodAnswer ≠ "Y") :
    pyMain inp = ([Event.promptProdConfirm], Outcome.userAbort) ∧
    ∀ e ∈ (pyMain inp).1, isPromptEvent e = true := by
  have hmain : pyMain inp = runArgs inp sub source "prod" := by
    simp [pyMain, hargv]
  rw [hmain]
  unfold runArgs
  rw [if_pos ⟨rfl, hny, hnY⟩]
  simp [isPromptEvent]

/-- Witness input for C3: a declined production confirmation. -/
def c3In : Input :=
  { argv := ["sync.py", "acme", "dev", "prod"]
    prodAnswer := "yes"
    scopeAnswer := "1"
    modeAnswer := "1"
    envOk := fun _ => true
    versionStdout := "8.9.1"
    versionStderr := ""
    stamp := "202401011200" }

/-- Witness for C3: answering `yes` (not exactly `y`/`Y`) aborts with only
the confirmation prompt in the trace. -/
theorem c3_prod_decline_zero_remote_calls_witness :
    pyMain c3In = ([Event.promptProdConfirm], Outcome.userAbort) ∧
    ∀ e ∈ (pyMain c3In).1, isPromptEvent e = true :=
  c3_prod_decline_zero_remote_calls c3In "sync.py" "acme" "dev" rfl
    (by decide) (by decide)

/-- C10: for a production destination the run proceeds past the confirmation
exactly when the operator's answer is the single character `y` or `Y`: any
other answer (including `yes`) yields the user-abort termination, and an
exact `y`/`Y` reaches the scope prompt. -/
theorem c10_prod_confirmation_exactly_y (inp : Input) (prog sub source : String)
    (hargv : inp.argv = [prog, sub, source, "prod"]) :
    ((pyMain inp).2 = Outcome.userAbort ↔
      ¬(inp.prodAnswer = "y" ∨ inp.prodAnswer = "Y")) ∧
    ((inp.prodAnswer = "y" ∨ inp.prodAnswer = "Y") →
      Event.promptScope ∈ (pyMain inp).1) := by
  have hmain : pyMain inp = runArgs inp sub source "prod" := by
    simp [pyMain, hargv]
  rw [hmain]
  unfold runArgs
  by_cases hA : inp.prodAnswer = "y" ∨ inp.prodAnswer = "Y"
  · have hno : ¬("prod" = "prod" ∧ inp.prodAnswer ≠ "y" ∧ inp.prodAnswer ≠ "Y") := by
      rintro ⟨-, hny, hnY⟩
      rcases hA with h | h
      · exact hny h
      · exact hnY h
    rw [if_neg hno]
    refine ⟨?_, fun _ => ?_⟩ <;> repeat' split
    all_goals simp_all [dbAndAfter_ne_userAbort]
  · push_neg at hA
    rw [if_pos ⟨rfl, hA.1, hA.2⟩]
    constructor
    · simp [hA.1, hA.2]
    · intro h
      rcases h with h | h
      · exact absurd h hA.1
      · exact absurd h hA.2

/-- Witness for C10: with answer `yes` the run is aborted; the bundled
equivalence is instantiated at the C3 witness input. -/
theorem c10_prod_confirmation_exactly_y_witness :
    ((pyMain c3In).2 = Outcome.userAbort ↔
      ¬(c3In.prodAnswer = "y" ∨ c3In.prodAnswer = "Y")) ∧
    ((c3In.prodAnswer = "y" ∨ c3In.prodAnswer = "Y") →
      Event.promptScope ∈ (pyMain c3In).1) :=
  c10_prod_confirmation_exactly_y c3In "sync.py" "acme" "dev" rfl


/-- Post-copy drush commands (sanitize or cache-clear) appearing in a trace. -/
def isPostCopyDrush : Event → Bool
  | .drush c => isSanOrCacheClear c
  | _ => false

/-- Counterexample input for C2: a database-scope sanitize run whose detected
platform version `9.1` starts with neither `7` nor `8`. -/
def c2In : Input :=
  { argv := ["sync.py", "acme", "dev", "stage"]
    prodAnswer := "x"
    scopeAnswer := "1"
    modeAnswer := "1"
    envOk := fun _ => true
    versionStdout := "9.1"
    versionStderr := ""
    stamp := "202401011200" }

/-- C2 counterexample: with an unclassified platform version the database
branch does not proceed without error — after the database copy the run
crashes (the `commands` variable was never assigned, a `NameError`, process
status 1), so the claim's "run otherwise proceeds without error" is false. -/
theorem c2_counterexample :
    pyMain c2In =
      ([Event.promptScope, Event.resolveEnv "acme" "stage", Event.versionQuery,
        Event.mkdirBackups, Event.drush (dumpCmd "acme" "stage" "202401011200"),
        Event.promptMode, Event.dbCopy "acme" "dev" "stage"],
       Outcome.nameErrorCrash) ∧
    exitCode (pyMain c2In).2 = 1 := by
  constructor
  · decide
  · decide

/-- C2 amended: with an unclassified platform version no post-copy command is
ever selected or issued, and the files branch silently proceeds to
completion; but the database branch terminates in a `NameError` crash right
after the database copy rather than proceeding without error. -/
theorem c2_unclassified_version_behaviour (inp : Input)
    (prog sub source dest version : String)
    (hargv : inp.argv = [prog, sub, source, dest])
    (hprod : dest = "prod" → inp.prodAnswer = "y" ∨ inp.prodAnswer = "Y")
    (henv : inp.envOk dest = true)
    (hfind : find_drupal_version inp.versionStdout inp.versionStderr =
      VersionResult.ok version)
    (h7 : startsWithChar '7' version.data = false)
    (h8 : startsWithChar '8' version.data = false)
    (hscope : inp.scopeAnswer = "2" ∨
      (inp.scopeAnswer = "1" ∧ (inp.modeAnswer = "1" ∨ inp.modeAnswer = "2"))) :
    (pyMain inp).1.filter isPostCopyDrush = [] ∧
    (pyMain inp).2 =
      (if inp.scopeAnswer = "2" then Outcome.completed
       else Outcome.nameErrorCrash) := by
  have habort : ¬(dest = "prod" ∧ inp.prodAnswer ≠ "y" ∧ inp.prodAnswer ≠ "Y") := by
    rintro ⟨hd, hny, hnY⟩
    rcases hprod hd with h | h
    · exact hny h
    · exact hnY h
  rcases hscope with hs | ⟨hs, hm⟩
  · constructor <;>
      simp [pyMain, hargv, runArgs, filesBranch, filesPostCopy, isPostCopyDrush,
        habort, hs, henv, hfind, h7, h8]
  · rcases hm with hm | hm <;>
      constructor <;>
        simp [pyMain, hargv, runArgs, dbAndAfter, sanitizeCommands,
          fullCopyCommands, isPostCopyDrush, habort, hs, hm, henv, hfind, h7, h8]

/-- Witness input for C2's amended theorem: a files-only run with
unclassified version `9.1`. -/
def c2FilesIn : Input :=
  { argv := ["sync.py", "acme", "dev", "stage"]
    prodAnswer := "x"
    scopeAnswer := "2"
    modeAnswer := "1"
    envOk := fun _ => true
    versionStdout := "9.1"
    versionStderr := ""
    stamp := "202401011200" }

/-- Witness for C2's amended theorem: the files-only run with version `9.1`
issues no post-copy command and completes. -/
theorem c2_unclassified_version_behaviour_witness :
    (pyMain c2FilesIn).1.filter isPostCopyDrush = [] ∧
    (pyMain c2FilesIn).2 =
      (if c2FilesIn.scopeAnswer = "2" then Outcome.completed
       else Outcome.nameErrorCrash) :=
  c2_unclassified_version_behaviour c2FilesIn "sync.py" "acme" "dev" "stage" "9.1"
    rfl (by decide) rfl (by decide) (by decide) (by decide) (Or.inl rfl)

/-- Counterexample input for C5: a production-destination run that succeeds
end to end. -/
def c5In : Input :=
  { argv := ["sync.py", "acme", "dev", "prod"]
    prodAnswer := "y"
    scopeAnswer := "1"
    modeAnswer := "2"
    envOk := fun _ => true
    versionStdout := "8.9.1"
    versionStderr := ""
    stamp := "202401011200" }

/-- C5 counterexample: the resolver call is not the first step — on this run
the first two events are the production-confirmation prompt and the scope
prompt, and the Environment Resolver call occurs only third. -/
theorem c5_counterexample :
    (pyMain c5In).1.take 3 =
      [Event.promptProdConfirm, Event.promptScope,
       Event.resolveEnv "acme" "prod"] ∧
    (pyMain c5In).1.head? = some Event.promptProdConfirm := by
  constructor
  · decide
  · decide

/-- C5 amended: the destination is validated via the Environment Resolver
after the production-confirmation and scope prompts but before any remote
command, and on lookup failure the run aborts as a validation error with a
trace containing only prompts and the resolver call — no backup or copy call
has occurred. -/
theorem c5_validation_failure_aborts (inp : Input)
    (prog sub source dest : String)
    (hargv : inp.argv = [prog, sub, source, dest])
    (hprod : dest = "prod" → inp.prodAnswer = "y" ∨ inp.prodAnswer = "Y")
    (hscope : inp.scopeAnswer = "1" ∨ inp.scopeAnswer = "2" ∨ inp.scopeAnswer = "3")
    (henv : inp.envOk dest = false) :
    pyMain inp =
      ((if dest = "prod" then [Event.promptProdConfirm] else []) ++
        [Event.promptScope, Event.resolveEnv sub dest],
       Outcome.validationError) ∧
    ∀ e ∈ (pyMain inp).1, isPromptEvent e = true ∨ e = Event.resolveEnv sub dest := by
  have habort : ¬(dest = "prod" ∧ inp.prodAnswer ≠ "y" ∧ inp.prodAnswer ≠ "Y") := by
    rintro ⟨hd, hny, hnY⟩
    rcases hprod hd with h | h
    · exact hny h
    · exact hnY h
  refine ⟨?_, ?_⟩
  · simp [pyMain, hargv, runArgs, habort, hscope, henv]
  · simp [pyMain, hargv, runArgs, habort, hscope, henv]
    rintro e h2
    rcases h2 with ⟨-, rfl⟩ | rfl | rfl <;> simp [isPromptEvent]

/-- Witness input for C5's amended theorem: destination `stage2` does not
resolve. -/
def c5BadIn : Input :=
  { argv := ["sync.py", "acme", "dev", "stage2"]
    prodAnswer := "x"
    scopeAnswer := "1"
    modeAnswer := "1"
    envOk := fun _ => false
    versionStdout := "8.9.1"
    versionStderr := ""
    stamp := "202401011200" }

/-- Witness for C5's amended theorem: the failed lookup for `stage2` aborts
with only the scope prompt and the resolver call in the trace. -/
theorem c5_validation_failure_aborts_witness :
    pyMain c5BadIn =
      ((if ("stage2" : String) = "prod" then [Event.promptProdConfirm] else []) ++
        [Event.promptScope, Event.resolveEnv "acme" "stage2"],
       Outcome.validationError) ∧
    ∀ e ∈ (pyMain c5BadIn).1,
      isPromptEvent e = true ∨ e = Event.resolveEnv "acme" "stage2" :=
  c5_validation_failure_aborts c5BadIn "sync.py" "acme" "dev" "stage2" rfl
    (by decide) (Or.inl rfl) (by decide)



/-- Membership in the optional confirmation-prompt prefix forces the event
to be the confirmation prompt. -/
theorem confirm_mem (P : Prop) [Decidable P] (e : Event)
    (h : e ∈ (if P then [Event.promptProdConfirm] else [])) :
    e = Event.promptProdConfirm := by
  split at h <;> simp_all

/-- C6: in the database branch, an invalid sanitization-mode selection aborts
the run right after the mode prompt: the destination database dump taken in
the preceding step is in the trace (and nothing removes it), and no
destructive remote operation has been or will be executed in the run. -/
theorem c6_bad_mode_aborts_backup_kept (inp : Input)
    (prog sub source dest version : String)
    (hargv : inp.argv = [prog, sub, source, dest])
    (hprod : dest = "prod" → inp.prodAnswer = "y" ∨ inp.prodAnswer = "Y")
    (hscope : inp.scopeAnswer = "1" ∨ inp.scopeAnswer = "3")
    (henv : inp.envOk dest = true)
    (hfind : find_drupal_version inp.versionStdout inp.versionStderr =
      VersionResult.ok version)
    (hm1 : inp.modeAnswer ≠ "1") (hm2 : inp.modeAnswer ≠ "2") :
    pyMain inp =
      ((if dest = "prod" then [Event.promptProdConfirm] else []) ++
        [Event.promptScope, Event.resolveEnv sub dest, Event.versionQuery,
         Event.mkdirBackups, Event.drush (dumpCmd sub dest inp.stamp),
         Event.promptMode],
       Outcome.badMode) ∧
    Event.drush (dumpCmd sub dest inp.stamp) ∈ (pyMain inp).1 ∧
    ∀ e ∈ (pyMain inp).1, isDestructiveEvent e = false := by
  have habort : ¬(dest = "prod" ∧ inp.prodAnswer ≠ "y" ∧ inp.prodAnswer ≠ "Y") := by
    rintro ⟨hd, hny, hnY⟩
    rcases hprod hd with h | h
    · exact hny h
    · exact hnY h
  have hmode : ¬(inp.modeAnswer = "1" ∨ inp.modeAnswer = "2") := by
    rintro (h | h)
    · exact hm1 h
    · exact hm2 h
  have hres : pyMain inp =
      ((if dest = "prod" then [Event.promptProdConfirm] else []) ++
        [Event.promptScope, Event.resolveEnv sub dest, Event.versionQuery,
         Event.mkdirBackups, Event.drush (dumpCmd sub dest inp.stamp),
         Event.promptMode],
       Outcome.badMode) := by
    rcases hscope with hs | hs <;>
      simp [pyMain, hargv, runArgs, dbAndAfter, habort, hmode, hs, henv, hfind]
  refine ⟨hres, ?_, ?_⟩
  · rw [hres]
    simp
  · rw [hres]
    intro e he
    rw [List.mem_append] at he
    rcases he with he | he
    · rcases confirm_mem _ e he with rfl
      rfl
    · simp only [List.mem_cons, List.not_mem_nil, or_false] at he
      rcases he with rfl | rfl | rfl | rfl | rfl | rfl <;>
        simp [isDestructiveEvent]

/-- Witness input for C6: an out-of-range sanitization-mode answer. -/
def c6In : Input :=
  { argv := ["sync.py", "acme", "dev", "stage"]
    prodAnswer := "x"
    scopeAnswer := "1"
    modeAnswer := "3"
    envOk := fun _ => true
    versionStdout := "8.9.1"
    versionStderr := ""
    stamp := "202401011200" }

/-- Witness for C6: answering `3` at the mode prompt aborts with the dump in
the trace and no destructive event anywhere. -/
theorem c6_bad_mode_aborts_backup_kept_witness :
    pyMain c6In =
      ((if ("stage" : String) = "prod" then [Event.promptProdConfirm] else []) ++
        [Event.promptScope, Event.resolveEnv "acme" "stage", Event.versionQuery,
         Event.mkdirBackups, Event.drush (dumpCmd "acme" "stage" "202401011200"),
         Event.promptMode],
       Outcome.badMode) ∧
    Event.drush (dumpCmd "acme" "stage" "202401011200") ∈ (pyMain c6In).1 ∧
    ∀ e ∈ (pyMain c6In).1, isDestructiveEvent e = false :=
  c6_bad_mode_aborts_backup_kept c6In "sync.py" "acme" "dev" "stage" "8.9.1"
    rfl (by decide) (Or.inl rfl) (by decide) (by decide) (by decide) (by decide)

/-- C7: the platform-version detection is fatal for the run — the trace stops
at the version query and the outcome is the version-detection exit or the
parse crash, never completion — whenever the remote status query emits
anything on stderr, returns no output, or returns output containing no
digit. -/
theorem c7_version_detection_fatal (inp : Input)
    (prog sub source dest : String)
    (hargv : inp.argv = [prog, sub, source, dest])
    (hprod : dest = "prod" → inp.prodAnswer = "y" ∨ inp.prodAnswer = "Y")
    (hscope : inp.scopeAnswer = "1" ∨ inp.scopeAnswer = "2" ∨ inp.scopeAnswer = "3")
    (henv : inp.envOk dest = true)
    (hfail : inp.versionStderr ≠ "" ∨ inp.versionStdout = "" ∨
      ∀ c ∈ inp.versionStdout.data, c.isDigit = false) :
    (pyMain inp).1 =
      (if dest = "prod" then [Event.promptProdConfirm] else []) ++
        [Event.promptScope, Event.resolveEnv sub dest, Event.versionQuery] ∧
    ((pyMain inp).2 = Outcome.versionNotFound ∨
     (pyMain inp).2 = Outcome.versionParseCrash) ∧
    (pyMain inp).2 ≠ Outcome.completed := by
  have habort : ¬(dest = "prod" ∧ inp.prodAnswer ≠ "y" ∧ inp.prodAnswer ≠ "Y") := by
    rintro ⟨hd, hny, hnY⟩
    rcases hprod hd with h | h
    · exact hny h
    · exact hnY h
  have hv : find_drupal_version inp.versionStdout inp.versionStderr =
        VersionResult.exitNoVersion ∨
      find_drupal_version inp.versionStdout inp.versionStderr =
        VersionResult.crashNoMatch := by
    unfold find_drupal_version
    by_cases he : inp.versionStderr = ""
    · rcases hfail with h | h | h
      · exact absurd he h
      · right
        simp [he, h, reSearchDigitRest]
      · right
        simp [he, reSearchDigitRest_no_digit _ h]
    · left
      simp [he]
  rcases hv with hv | hv <;>
    refine ⟨?_, ?_, ?_⟩ <;>
      simp [pyMain, hargv, runArgs, habort, hscope, henv, hv]

/-- Witness input for C7: the remote version query writes a warning to its
error stream. -/
def c7In : Input :=
  { argv := ["sync.py", "acme", "dev", "stage"]
    prodAnswer := "x"
    scopeAnswer := "1"
    modeAnswer := "1"
    envOk := fun _ => true
    versionStdout := ""
    versionStderr := "ssh: warning"
    stamp := "202401011200" }

/-- Witness for C7: with stderr output the run ends at the version query. -/
theorem c7_version_detection_fatal_witness :
    (pyMain c7In).1 =
      (if ("stage" : String) = "prod" then [Event.promptProdConfirm] else []) ++
        [Event.promptScope, Event.resolveEnv "acme" "stage", Event.versionQuery] ∧
    ((pyMain c7In).2 = Outcome.versionNotFound ∨
     (pyMain c7In).2 = Outcome.versionParseCrash) ∧
    (pyMain c7In).2 ≠ Outcome.completed :=
  c7_version_detection_fatal c7In "sync.py" "acme" "dev" "stage" rfl
    (by decide) (Or.inl rfl) (by decide) (Or.inl (by decide))


/-- Counterexample input for C8: an invocation with missing arguments. -/
def c8In : Input :=
  { argv := ["sync.py", "acme"]
    prodAnswer := ""
    scopeAnswer := ""
    modeAnswer := ""
    envOk := fun _ => false
    versionStdout := ""
    versionStderr := ""
    stamp := "" }

/-- C8 counterexample: with missing arguments the script logs the usage error
and terminates via `quit()` — which raises `SystemExit(None)` and therefore
exits with status 0, not a non-zero status as claimed. -/
theorem c8_counterexample :
    pyMain c8In = ([], Outcome.usageError) ∧ exitCode (pyMain c8In).2 = 0 := by
  constructor
  · decide
  · decide

/-- C8 amended: missing CLI arguments produce the usage error and terminate
the process, and out-of-range scope or sanitization-mode selections abort
with an error message — but in all three cases termination is via a bare
`quit()`, so the exit status is 0, not non-zero. -/
theorem c8_aborts_exit_status_zero :
    (∀ inp : Input, inp.argv.length ≠ 4 →
      pyMain inp = ([], Outcome.usageError) ∧ exitCode (pyMain inp).2 = 0) ∧
    (∀ (inp : Input) (prog sub source dest : String),
      inp.argv = [prog, sub, source, dest] →
      (dest = "prod" → inp.prodAnswer = "y" ∨ inp.prodAnswer = "Y") →
      inp.scopeAnswer ≠ "1" → inp.scopeAnswer ≠ "2" → inp.scopeAnswer ≠ "3" →
      (pyMain inp).2 = Outcome.badScope ∧ exitCode (pyMain inp).2 = 0) ∧
    (∀ (inp : Input) (prog sub source dest version : String),
      inp.argv = [prog, sub, source, dest] →
      (dest = "prod" → inp.prodAnswer = "y" ∨ inp.prodAnswer = "Y") →
      (inp.scopeAnswer = "1" ∨ inp.scopeAnswer = "3") →
      inp.envOk dest = true →
      find_drupal_version inp.versionStdout inp.versionStderr =
        VersionResult.ok version →
      inp.modeAnswer ≠ "1" → inp.modeAnswer ≠ "2" →
      (pyMain inp).2 = Outcome.badMode ∧ exitCode (pyMain inp).2 = 0) := by
  refine ⟨?_, ?_, ?_⟩
  · intro inp h
    rcases hargv : inp.argv with _ | ⟨p, _ | ⟨a, _ | ⟨b, _ | ⟨c, _ | ⟨d, rest⟩⟩⟩⟩⟩ <;>
      first
        | (simp [pyMain, hargv, exitCode]; done)
        | (simp [hargv] at h)
  · intro inp prog sub source dest hargv hprod h1 h2 h3
    have habort : ¬(dest = "prod" ∧ inp.prodAnswer ≠ "y" ∧ inp.prodAnswer ≠ "Y") := by
      rintro ⟨hd, hny, hnY⟩
      rcases hprod hd with h | h
      · exact hny h
      · exact hnY h
    have hns : ¬(inp.scopeAnswer = "1" ∨ inp.scopeAnswer = "2" ∨
        inp.scopeAnswer = "3") := by
      rintro (h | h | h)
      · exact h1 h
      · exact h2 h
      · exact h3 h
    constructor <;> simp [pyMain, hargv, runArgs, habort, hns, exitCode]
  · intro inp prog sub source dest version hargv hprod hscope henv hfind hm1 hm2
    have habort : ¬(dest = "prod" ∧ inp.prodAnswer ≠ "y" ∧ inp.prodAnswer ≠ "Y") := by
      rintro ⟨hd, hny, hnY⟩
      rcases hprod hd with h | h
      · exact hny h
      · exact hnY h
    have hmode : ¬(inp.modeAnswer = "1" ∨ inp.modeAnswer = "2") := by
      rintro (h | h)
      · exact hm1 h
      · exact hm2 h
    rcases hscope with hs | hs <;>
      constructor <;>
        simp [pyMain, hargv, runArgs, dbAndAfter, habort, hmode, hs, henv,
          hfind, exitCode]

/-- Witness input for C8's amended theorem: an out-of-range scope answer. -/
def c8ScopeIn : Input :=
  { argv := ["sync.py", "acme", "dev", "stage"]
    prodAnswer := "x"
    scopeAnswer := "9"
    modeAnswer := "1"
    envOk := fun _ => true
    versionStdout := "8.9.1"
    versionStderr := ""
    stamp := "202401011200" }

/-- Witness for C8's amended theorem: a short argv run and an out-of-range
scope selection both terminate with exit status 0. -/
theorem c8_aborts_exit_status_zero_witness :
    (pyMain c8In = ([], Outcome.usageError) ∧ exitCode (pyMain c8In).2 = 0) ∧
    ((pyMain c8ScopeIn).2 = Outcome.badScope ∧
     exitCode (pyMain c8ScopeIn).2 = 0) := by
  have h := c8_aborts_exit_status_zero
  exact ⟨h.1 c8In (by decide),
    h.2.1 c8ScopeIn "sync.py" "acme" "dev" "stage" rfl (by decide)
      (by decide) (by decide) (by decide)⟩


/-- The files branch issues no resolver call. -/
theorem resolve_not_in_filesBranch (s e sub src dst v : String) :
    Event.resolveEnv s e ∉ filesBranch sub src dst v := by
  unfold filesBranch filesPostCopy
  repeat' split
  all_goals simp

/-- The database branch (with its optional files continuation) issues no
resolver call. -/
theorem resolve_not_in_dbAndAfter (s e m st sub src dst v : String) (f : Bool) :
    Event.resolveEnv s e ∉ (dbAndAfter m st sub src dst v f).1 := by
  unfold dbAndAfter
  split
  · split
    · simp
    · rename_i cs heq
      split
      · simp [resolve_not_in_filesBranch]
      · simp
  · simp

/-- C9: the Environment Resolver is consulted only for the destination: every
resolver call in every trace names the destination (never the source); the
run's behaviour is unchanged under any reinterpretation of which environments
resolve, as long as the destination's resolvability is unchanged; and a run
whose source does not resolve still passes validation and proceeds through
the backup to the external copy call and completion. -/
theorem c9_source_never_resolved :
    (∀ (inp : Input) (prog sub source dest : String),
        inp.argv = [prog, sub, source, dest] →
        ∀ s e, Event.resolveEnv s e ∈ (pyMain inp).1 → s = sub ∧ e = dest) ∧
    (∀ (inp : Input) (f : String → Bool) (prog sub source dest : String),
        inp.argv = [prog, sub, source, dest] →
        f dest = inp.envOk dest →
        pyMain { inp with envOk := f } = pyMain inp) ∧
    (∀ (inp : Input) (prog sub source dest version : String),
        inp.argv = [prog, sub, source, dest] →
        inp.envOk source = false →
        (dest = "prod" → inp.prodAnswer = "y" ∨ inp.prodAnswer = "Y") →
        inp.scopeAnswer = "1" →
        inp.envOk dest = true →
        find_drupal_version inp.versionStdout inp.versionStderr =
          VersionResult.ok version →
        inp.modeAnswer = "2" →
        startsWithChar '8' version.data = true →
        (pyMain inp).2 = Outcome.completed ∧
        Event.drush (dumpCmd sub dest inp.stamp) ∈ (pyMain inp).1 ∧
        Event.dbCopy sub source dest ∈ (pyMain inp).1) := by
  refine ⟨?_, ?_, ?_⟩
  · intro inp prog sub source dest hargv s e
    simp only [pyMain, hargv]
    unfold runArgs
    repeat' split
    all_goals
      (intro hmem;
       simp_all [resolve_not_in_dbAndAfter, resolve_not_in_filesBranch])
  · intro inp f prog sub source dest hargv hf
    rcases inp with ⟨argv, pa, sa, ma, eo, vo, ve, st⟩
    simp only at hargv hf
    subst hargv
    simp only [pyMain]
    unfold runArgs
    simp only
    rw [hf]
  · intro inp prog sub source dest version hargv hsrc hprod hscope henv hfind
      hmode h8
    have habort : ¬(dest = "prod" ∧ inp.prodAnswer ≠ "y" ∧ inp.prodAnswer ≠ "Y") := by
      rintro ⟨hd, hny, hnY⟩
      rcases hprod hd with h | h
      · exact hny h
      · exact hnY h
    have h7 := startsWithChar_eight_not_seven _ h8
    refine ⟨?_, ?_, ?_⟩ <;>
      simp [pyMain, hargv, runArgs, dbAndAfter, fullCopyCommands, habort,
        hscope, henv, hfind, hmode, h7, h8]

/-- Witness input for C9: the source `dev` does not resolve, the destination
`stage` does. -/
def c9In : Input :=
  { argv := ["sync.py", "acme", "dev", "stage"]
    prodAnswer := "x"
    scopeAnswer := "1"
    modeAnswer := "2"
    envOk := fun e => e == "stage"
    versionStdout := "8.9.1"
    versionStderr := ""
    stamp := "202401011200" }

/-- Witness for C9: on the concrete run with an unresolvable source, the
resolver call in the trace names the destination, replacing the resolver
behaviour (preserving the destination) changes nothing, and the run proceeds
through the dump to the database copy and completion. -/
theorem c9_source_never_resolved_witness :
    ("acme" = "acme" ∧ "stage" = "stage") ∧
    pyMain { c9In with envOk := fun e => e == "stage" } = pyMain c9In ∧
    ((pyMain c9In).2 = Outcome.completed ∧
     Event.drush (dumpCmd "acme" "stage" "202401011200") ∈ (pyMain c9In).1 ∧
     Event.dbCopy "acme" "dev" "stage" ∈ (pyMain c9In).1) := by
  have h := c9_source_never_resolved
  exact ⟨h.1 c9In "sync.py" "acme" "dev" "stage" rfl "acme" "stage" (by decide),
    h.2.1 c9In (fun e => e == "stage") "sync.py" "acme" "dev" "stage" rfl rfl,
    h.2.2 c9In "sync.py" "acme" "dev" "stage" "8.9.1" rfl (by decide)
      (by decide) rfl (by decide) (by decide) rfl (by decide)⟩

end Sync
